import Mathlib

/-!
Shallow embedding of the validated-object layer of the whatsapp-api-js
repository (src/messages/interactive.ts and src/messages/location.ts).

Each TypeScript class is translated to a Lean structure holding the fields the
constructor assigns, and each constructor to a `construct` function returning
`Except String _` (`.error msg` models `throw new Error(msg)`).  JavaScript
string truthiness (`!s` holds exactly for the empty string on a string-typed
argument) is modelled by comparison with `""`; an optional argument is an
`Option`.  The internal discriminant property `_` of the source objects is
modelled by a field named `tag : Option String` (`none` models the property
being absent, e.g. after `delete action._`).  Constructors that mutate their
argument (`delete action._` in `Interactive`, `delete object._` in `Header`)
return the post-call state of that argument as the second component of a pair,
making the side effect explicit state passing.
-/

namespace WhatsApp

/-- `if (x) this.f = x` for an optional string argument: the field is stored
exactly when the argument is present and truthy (non-empty). -/
def optStr : Option String → Option String
  | some s => if s = "" then none else some s
  | none => none

/-- `Body` API object (interactive.ts line 80). -/
structure Body where
  text : String
deriving DecidableEq

/-- `new Body(text)` (interactive.ts lines 90-96). -/
def Body.construct (text : String) : Except String Body :=
  if text = "" then .error "Body must have a text object"
  else if text.length > 1024 then .error "Body text must be less than 1024 characters"
  else .ok { text }

/-- `Footer` API object (interactive.ts line 104). -/
structure Footer where
  text : String
deriving DecidableEq

/-- `new Footer(text)` (interactive.ts lines 114-120). -/
def Footer.construct (text : String) : Except String Footer :=
  if text = "" then .error "Footer must have a text object"
  else if text.length > 60 then .error "Footer text must be 60 characters or less"
  else .ok { text }

/-- The nested `reply` record of a `Button` (interactive.ts lines 227-230). -/
structure ButtonReply where
  id : String
  title : String
deriving DecidableEq

/-- `Button` API object (interactive.ts line 225).  `type` is always assigned
the literal `"reply"` by the constructor. -/
structure Button where
  type : String
  reply : ButtonReply
deriving DecidableEq

/-- `/^ | $/.test(id)` (interactive.ts line 247): the regex matches exactly
when the string starts or ends with a space character U+0020. -/
def idHasEdgeSpace (id : String) : Bool :=
  id.data.head? = some ' ' || id.data.getLast? = some ' '

/-- `new Button(id, title)` (interactive.ts lines 243-258). -/
def Button.construct (id title : String) : Except String Button :=
  if id = "" then .error "Button must have an id"
  else if id.length > 256 then .error "Button id must be 256 characters or less"
  else if idHasEdgeSpace id then .error "Button id cannot have leading or trailing spaces"
  else if title = "" then .error "Button must have a title"
  else if title.length > 20 then .error "Button title must be 20 characters or less"
  else .ok { type := "reply", reply := { id, title } }

/-- `Row` API object (interactive.ts line 342). -/
structure Row where
  id : String
  title : String
  description : Option String
deriving DecidableEq

/-- `new Row(id, title, description)` (interactive.ts lines 359-372). -/
def Row.construct (id title : String) (description : Option String) : Except String Row :=
  if id = "" then .error "Row must have an id"
  else if id.length > 200 then .error "Row id must be 200 characters or less"
  else if title = "" then .error "Row must have a title"
  else if title.length > 24 then .error "Row title must be 24 characters or less"
  else if (optStr description).any (fun d => d.length > 72) then
    .error "Row description must be 72 characters or less"
  else .ok { id, title, description := optStr description }

/-- `ListSection` API object (interactive.ts line 312).  `title` is `none`
when the property was not assigned (falsy constructor argument). -/
structure ListSection where
  title : Option String
  rows : List Row
deriving DecidableEq

/-- `new ListSection(title, ...rows)` (interactive.ts lines 324-332). -/
def ListSection.construct (title : String) (rows : List Row) : Except String ListSection :=
  if title ≠ "" ∧ title.length > 24 then .error "Section title must be 24 characters or less"
  else if rows.length = 0 ∨ rows.length > 10 then .error "Section must have between 1 and 10 rows"
  else .ok { title := if title = "" then none else some title, rows }

/-- `Product` API object (interactive.ts line 482). -/
structure Product where
  product_retailer_id : String
deriving DecidableEq

/-- `new Product(product_retailer_id)` (interactive.ts lines 491-495). -/
def Product.construct (product_retailer_id : String) : Except String Product :=
  if product_retailer_id = "" then .error "Product must have a product_retailer_id"
  else .ok { product_retailer_id }

/-- `ProductSection` API object (interactive.ts line 454). -/
structure ProductSection where
  title : Option String
  product_items : List Product
deriving DecidableEq

/-- `new ProductSection(title, ...products)` (interactive.ts lines 466-474). -/
def ProductSection.construct (title : String) (products : List Product) :
    Except String ProductSection :=
  if title ≠ "" ∧ title.length > 24 then .error "Section title must be 24 characters or less"
  else if products.length = 0 ∨ products.length > 30 then
    .error "Section must have between 1 and 30 products"
  else .ok { title := if title = "" then none else some title, product_items := products }

/-- `ActionButtons` API object (interactive.ts line 187).  `tag` models the
internal discriminant property `_`. -/
structure ActionButtons where
  buttons : List Button
  tag : Option String
deriving DecidableEq

/-- `new ActionButtons(...button)` (interactive.ts lines 199-215).  The source
reads each id as `b[b.type].id`, which resolves to `b.reply.id` since `type`
is always `"reply"`; the `new Set(xs).size !== xs.length` duplicate test is
the comparison with the deduplicated length. -/
def ActionButtons.construct (button : List Button) : Except String ActionButtons :=
  if button.length = 0 ∨ button.length > 3 then
    .error "Reply buttons must have between 1 and 3 buttons"
  else if (button.map fun b => b.reply.id).length ≠ (button.map fun b => b.reply.id).dedup.length then
    .error "Reply buttons must have unique ids"
  else if (button.map fun b => b.reply.title).length ≠ (button.map fun b => b.reply.title).dedup.length then
    .error "Reply buttons must have unique titles"
  else .ok { buttons := button, tag := some "button" }

/-- `ActionList` API object (interactive.ts line 268). -/
structure ActionList where
  button : String
  sections : List ListSection
  tag : Option String
deriving DecidableEq

/-- `new ActionList(button, ...sections)` (interactive.ts lines 284-303).
`Object.prototype.hasOwnProperty.call(obj, "title")` is `title.isSome`, since
the `ListSection` constructor assigns the property exactly when truthy. -/
def ActionList.construct (button : String) (sections : List ListSection) :
    Except String ActionList :=
  if button = "" then .error "Action must have a button content"
  else if button.length > 20 then .error "Button content must be 20 characters or less"
  else if sections.length = 0 ∨ sections.length > 10 then
    .error "Action must have between 1 and 10 sections"
  else if sections.length > 1 ∧ ¬ sections.all (fun s => s.title.isSome) then
    .error "All sections must have a title if more than 1 section is provided"
  else .ok { button, sections, tag := some "list" }

/-- An element of the variadic `products` argument of `ActionCatalog`:
either a `Product` or a `ProductSection` (`instanceof` discriminates). -/
inductive CatalogChild
  | prod (p : Product)
  | sect (s : ProductSection)
deriving DecidableEq

/-- `products[0] instanceof Product`. -/
def CatalogChild.isProduct : CatalogChild → Bool
  | .prod _ => true
  | .sect _ => false

/-- The `for (const obj of products)` loop of the `ActionCatalog` constructor
(interactive.ts lines 421-433): each element must be a `ProductSection` and
must own a `title` property; the first violation wins. -/
def checkProductSectionTitles : List CatalogChild → Except String Unit
  | [] => .ok ()
  | .prod _ :: _ => .error "Catalog must have only ProductSection objects"
  | .sect s :: rest =>
    if s.title.isNone then
      .error "All sections must have a title if more than 1 section is provided"
    else checkProductSectionTitles rest

/-- `ActionCatalog` API object (interactive.ts line 383). -/
structure ActionCatalog where
  catalog_id : String
  product_retailer_id : Option String
  sections : Option (List CatalogChild)
  tag : Option String
deriving DecidableEq

/-- `new ActionCatalog(catalog_id, ...products)` (interactive.ts lines
400-445). -/
def ActionCatalog.construct (catalog_id : String) (products : List CatalogChild) :
    Except String ActionCatalog :=
  if catalog_id = "" then .error "Catalog must have a catalog id"
  else match products with
  | [] => .error "Catalog must have at least one product or product section"
  | first_product :: _ =>
    if first_product.isProduct ∧ products.length > 1 then
      .error "Catalog must have only 1 product, use a ProductSection instead"
    else if products.length > 10 then
      .error "Catalog must have between 1 and 10 product sections"
    else match (if products.length > 1 then checkProductSectionTitles products else .ok ()) with
    | .error e => .error e
    | .ok () =>
      .ok { catalog_id
            product_retailer_id :=
              match first_product with
              | .prod p => some p.product_retailer_id
              | .sect _ => none
            sections := if first_product.isProduct then none else some products
            tag := some (if first_product.isProduct then "product" else "product_list") }

/-- Modelled from the spec: the media message objects (`Image`, `Video`,
`Document` from src/messages/media, a file absent from src/) are tagged
payload objects — they carry the internal discriminant property `_` naming
their variant, an opaque payload, and optionally a `caption` own property
(spec section 4.3: "a media object carrying type ∈ {image,video,document}";
"if the underlying media object has a caption attribute set, construction
fails"). -/
structure MediaObj where
  tag : Option String
  payload : String
  caption : Option String
deriving DecidableEq

/-- Modelled from the spec: the argument of `new Header(object)` is "exactly
one tagged child object (Body-like text wrapper, or a media object)" (spec
section 4.3).  A `Text` wrapper always carries `_ = "text"` and its string in
`body`; anything else is a media object. -/
inductive HeaderChild
  | text (body : String)
  | media (m : MediaObj)
deriving DecidableEq

/-- `Header` API object (interactive.ts line 132).  Exactly one of the four
content fields is populated, keyed by `type` (`this[this.type] = object`).
The `text` field holds a string for a genuine `Text` wrapper, but the source
would store the raw object there for a non-`Text` child tagged `"text"`, hence
the sum.  `tag` models the `_` property, which the `Header` class never
declares nor assigns. -/
structure Header where
  type : String
  text : Option (String ⊕ MediaObj) := none
  image : Option MediaObj := none
  document : Option MediaObj := none
  video : Option MediaObj := none
  tag : Option String := none
deriving DecidableEq

/-- `this[this.type] = object` for a media child (interactive.ts line 176). -/
def Header.assign (t : String) (m : MediaObj) : Header :=
  if t = "image" then { type := t, image := some m }
  else if t = "document" then { type := t, document := some m }
  else if t = "video" then { type := t, video := some m }
  else { type := t, text := some (.inr m) }

/-- `new Header(object)` (interactive.ts lines 148-178).  The second
component of the result is the post-call state of the caller's argument:
`delete object._` (line 169) runs on a media child before the caption check,
so the tag is removed even when construction then fails. -/
def Header.construct : HeaderChild → Except String Header × HeaderChild
  | .text body =>
    if body.length > 60 then
      (.error "Header text must be 60 characters or less", .text body)
    else
      (.ok { type := "text", text := some (.inl body) }, .text body)
  | .media m =>
    match m.tag with
    | none => (.error "Unexpected internal error (object._ is not defined)", .media m)
    | some t =>
      if ¬ (["text", "video", "image", "document"].contains t) then
        (.error "Header object must be either Text, Video, Image or Document.", .media m)
      else
        if m.caption.isSome then
          (.error ("Header " ++ t ++ " must not have a caption"), .media { m with tag := none })
        else
          (.ok (Header.assign t { m with tag := none }), .media { m with tag := none })

/-- The `action` argument of `Interactive`: one of the three action classes. -/
inductive Action
  | buttons (a : ActionButtons)
  | list (a : ActionList)
  | catalog (a : ActionCatalog)
deriving DecidableEq

/-- `action._`. -/
def Action.tag : Action → Option String
  | .buttons a => a.tag
  | .list a => a.tag
  | .catalog a => a.tag

/-- `delete action._`: removes the discriminant property and nothing else. -/
def Action.clearTag : Action → Action
  | .buttons a => .buttons { a with tag := none }
  | .list a => .list { a with tag := none }
  | .catalog a => .catalog { a with tag := none }

/-- `Interactive` API object (interactive.ts line 14). -/
structure Interactive where
  action : Action
  type : String
  body : Option Body := none
  header : Option Header := none
  footer : Option Footer := none
  tag : Option String := none
deriving DecidableEq

/-- `header?.type`: optional chaining yields `undefined` when `header` is
absent. -/
def headerType : Option Header → Option String
  | none => none
  | some h => some h.type

/-- `new Interactive(action, body, header, footer)` (interactive.ts lines
35-72).  The `if (!action)` null check is unrepresentable here since `action`
cannot be null in the embedding.  The second component of the result is the
post-call state of the caller's `action`: `delete action._` (line 64) runs
only after all checks pass. -/
def Interactive.construct (action : Action) (body : Option Body) (header : Option Header)
    (footer : Option Footer) : Except String Interactive × Action :=
  match action.tag with
  | none => (.error "Unexpected internal error (action._ is not defined)", action)
  | some t =>
    if t ≠ "product" ∧ body = none then
      (.error "Interactive must have a body component", action)
    else if t = "product" ∧ header.isSome then
      (.error "Interactive must not have a header component if action is a single product", action)
    else if t = "product_list" ∧ headerType header ≠ some "text" then
      (.error "Interactive must have a Text header component if action is a product list", action)
    else if header.isSome ∧ t ≠ "button" ∧ headerType header ≠ some "text" then
      (.error "Interactive header must be of type Text", action)
    else
      (.ok { action := action.clearTag, type := t, body, header, footer,
             tag := some "interactive" },
       action.clearTag)

/-- `Location` API object (location.ts line 8).  The base class
`ClientMessage` (src/types, a file absent from src/) is modelled from the
spec as contributing no construction behaviour: construction in this layer is
"synchronous, single-threaded, side-effect-free apart from throwing" (spec
section 5), and `ClientMessage` only supplies the `_type` serialization
getter.  Coordinates are IEEE doubles, stored without any validation. -/
structure Location where
  longitude : Float
  latitude : Float
  name : Option String := none
  address : Option String := none

/-- `new Location(longitude, latitude, name, address)` (location.ts lines
42-54): a total function — the constructor has no throw path. -/
def Location.construct (longitude latitude : Float) (name address : Option String) : Location :=
  { longitude, latitude, name := optStr name, address := optStr address }

/-- `true` exactly when construction succeeded. -/
def isOkB {α : Type} : Except String α → Bool
  | .ok _ => true
  | .error _ => false

theorem dedup_length_eq_iff_nodup (l : List String) : l.dedup.length = l.length ↔ l.Nodup := by
  constructor
  · intro h
    have hd : l.dedup = l := (List.dedup_sublist l).eq_of_length h
    rw [← hd]
    exact List.nodup_dedup l
  · intro h
    rw [List.dedup_eq_self.mpr h]

theorem string_ne_empty_of_length {s : String} {n : Nat} (h : s.length = n) (hn : n ≠ 0) :
    s ≠ "" := by
  intro he
  rw [he] at h
  exact hn (h.symm.trans (by decide))

/-- C7: constructing a `Header` from a text wrapper with body `"Hi"` yields an
instance whose `type` is `"text"` and whose `text` field holds the string
`"Hi"`, with the internal discriminant `_` absent (`tag = none`); the wrapper
itself is returned unchanged. -/
theorem c7_header_text_roundtrip :
    Header.construct (.text "Hi") =
      (.ok { type := "text", text := some (.inl "Hi"), image := none, document := none,
             video := none, tag := none },
       .text "Hi") := by
  rfl

/-- C3: `ActionCatalog` with a non-empty `catalog_id`: one `Product` succeeds
in single-product mode with the retailer id stored; two or more bare
`Product`s fail; two `ProductSection`s with one missing a title fail; two
titled `ProductSection`s succeed in product-list mode with the sections
stored. -/
theorem c3_action_catalog_modes :
    (∀ (cid : String) (p : Product), cid ≠ "" →
      ActionCatalog.construct cid [.prod p] =
        .ok { catalog_id := cid, product_retailer_id := some p.product_retailer_id,
              sections := none, tag := some "product" }) ∧
    (∀ (cid : String) (ps : List Product), cid ≠ "" → 2 ≤ ps.length →
      ActionCatalog.construct cid (ps.map .prod) =
        .error "Catalog must have only 1 product, use a ProductSection instead") ∧
    (∀ (cid : String) (s1 s2 : ProductSection), cid ≠ "" →
      (s1.title = none ∨ s2.title = none) →
      ActionCatalog.construct cid [.sect s1, .sect s2] =
        .error "All sections must have a title if more than 1 section is provided") ∧
    (∀ (cid : String) (s1 s2 : ProductSection), cid ≠ "" →
      s1.title.isSome → s2.title.isSome →
      ActionCatalog.construct cid [.sect s1, .sect s2] =
        .ok { catalog_id := cid, product_retailer_id := none,
              sections := some [.sect s1, .sect s2], tag := some "product_list" }) := by
  refine ⟨?_, ?_, ?_, ?_⟩
  · intro cid p hcid
    simp [ActionCatalog.construct, hcid, CatalogChild.isProduct]
  · intro cid ps hcid hlen
    rcases ps with _ | ⟨p, rest⟩
    · simp at hlen
    · simp only [List.map_cons, ActionCatalog.construct]
      rw [if_neg hcid, if_pos]
      refine ⟨rfl, ?_⟩
      simp only [List.length_cons] at hlen
      simp only [List.length_cons, List.length_map]
      omega
  · intro cid s1 s2 hcid htitle
    simp only [ActionCatalog.construct]
    rw [if_neg hcid]
    rcases htitle with h | h
    · simp [CatalogChild.isProduct, checkProductSectionTitles, h]
    · rcases h1 : s1.title with _ | t1
      · simp [CatalogChild.isProduct, checkProductSectionTitles, h1]
      · simp [CatalogChild.isProduct, checkProductSectionTitles, h1, h]
  · intro cid s1 s2 hcid h1 h2
    simp only [ActionCatalog.construct]
    rw [if_neg hcid]
    rcases Option.isSome_iff_exists.mp h1 with ⟨t1, ht1⟩
    rcases Option.isSome_iff_exists.mp h2 with ⟨t2, ht2⟩
    simp [CatalogChild.isProduct, checkProductSectionTitles, ht1, ht2]

/-- C3 witness: a single product in a catalog. -/
theorem c3_witness :
    ActionCatalog.construct "c" [.prod { product_retailer_id := "r" }] =
      .ok { catalog_id := "c", product_retailer_id := some "r", sections := none,
            tag := some "product" } :=
  c3_action_catalog_modes.1 "c" { product_retailer_id := "r" } (by decide)

/-- C5: for each length-capped text field — `Body` text (1024), `Footer` text
(60), `Button` title (20), `Row` title (24) — a string of exactly the maximum
length succeeds and one character past the maximum fails with the length
error. -/
theorem c5_length_caps :
    (∀ s : String, s.length = 1024 → Body.construct s = .ok { text := s }) ∧
    (∀ s : String, s.length = 1025 →
      Body.construct s = .error "Body text must be less than 1024 characters") ∧
    (∀ s : String, s.length = 60 → Footer.construct s = .ok { text := s }) ∧
    (∀ s : String, s.length = 61 →
      Footer.construct s = .error "Footer text must be 60 characters or less") ∧
    (∀ s : String, s.length = 20 →
      Button.construct "id" s = .ok { type := "reply", reply := { id := "id", title := s } }) ∧
    (∀ s : String, s.length = 21 →
      Button.construct "id" s = .error "Button title must be 20 characters or less") ∧
    (∀ s : String, s.length = 24 →
      Row.construct "id" s none = .ok { id := "id", title := s, description := none }) ∧
    (∀ s : String, s.length = 25 →
      Row.construct "id" s none = .error "Row title must be 24 characters or less") := by
  refine ⟨?_, ?_, ?_, ?_, ?_, ?_, ?_, ?_⟩ <;> intro s h <;>
    have hne : s ≠ "" := string_ne_empty_of_length h (by decide)
  · unfold Body.construct
    rw [if_neg hne, if_neg (by omega)]
  · unfold Body.construct
    rw [if_neg hne, if_pos (by omega)]
  · unfold Footer.construct
    rw [if_neg hne, if_neg (by omega)]
  · unfold Footer.construct
    rw [if_neg hne, if_pos (by omega)]
  · unfold Button.construct
    rw [if_neg (by decide), if_neg (by decide), if_neg (by decide), if_neg hne,
        if_neg (by omega)]
  · unfold Button.construct
    rw [if_neg (by decide), if_neg (by decide), if_neg (by decide), if_neg hne,
        if_pos (by omega)]
  · unfold Row.construct
    rw [if_neg (by decide), if_neg (by decide), if_neg hne, if_neg (by omega),
        if_neg (by decide)]
    rfl
  · unfold Row.construct
    rw [if_neg (by decide), if_neg (by decide), if_neg hne, if_pos (by omega)]

/-- C5 witness: `Footer` at the 60-character maximum and one past it. -/
theorem c5_witness :
    Footer.construct (String.mk (List.replicate 60 'a')) =
        .ok { text := String.mk (List.replicate 60 'a') } ∧
      Footer.construct (String.mk (List.replicate 61 'a')) =
        .error "Footer text must be 60 characters or less" :=
  ⟨c5_length_caps.2.2.1 _ (by decide), c5_length_caps.2.2.2.1 _ (by decide)⟩

/-- C9: an empty string in a required text field is reported with that
field's missing-field error (string truthiness), not a length error. -/
theorem c9_empty_required_fields :
    (Body.construct "" = .error "Body must have a text object") ∧
    (Footer.construct "" = .error "Footer must have a text object") ∧
    (∀ title : String, Button.construct "" title = .error "Button must have an id") ∧
    (∀ id : String, id ≠ "" → id.length ≤ 256 → idHasEdgeSpace id = false →
      Button.construct id "" = .error "Button must have a title") ∧
    (∀ (title : String) (d : Option String),
      Row.construct "" title d = .error "Row must have an id") ∧
    (∀ (id : String) (d : Option String), id ≠ "" → id.length ≤ 200 →
      Row.construct id "" d = .error "Row must have a title") := by
  refine ⟨rfl, rfl, ?_, ?_, ?_, ?_⟩
  · intro title
    rfl
  · intro id h1 h2 h3
    unfold Button.construct
    rw [if_neg h1, if_neg (by omega), if_neg (by simp [h3]), if_pos rfl]
  · intro title d
    rfl
  · intro id d h1 h2
    unfold Row.construct
    rw [if_neg h1, if_neg (by omega), if_pos rfl]

/-- C9 witness: a valid id with an empty title. -/
theorem c9_witness :
    Button.construct "x" "" = .error "Button must have a title" :=
  c9_empty_required_fields.2.2.2.1 "x" (by decide) (by decide) (by decide)

/-- C10: the `Location` constructor is total (it returns a `Location` for
every pair of doubles, NaN and infinities included, with the coordinates
stored as given) and performs no validation; a falsy name or address is
omitted, and a non-empty address is stored even when the name is absent. -/
theorem c10_location_total (lo la : Float) (n a : Option String) :
    (Location.construct lo la n a).longitude = lo ∧
    (Location.construct lo la n a).latitude = la ∧
    (∀ s, n = some s → s ≠ "" → (Location.construct lo la n a).name = some s) ∧
    ((n = none ∨ n = some "") → (Location.construct lo la n a).name = none) ∧
    (∀ s, a = some s → s ≠ "" → (Location.construct lo la n a).address = some s) ∧
    ((a = none ∨ a = some "") → (Location.construct lo la n a).address = none) := by
  refine ⟨rfl, rfl, ?_, ?_, ?_, ?_⟩
  · intro s hn hs
    simp [Location.construct, optStr, hn, hs]
  · rintro (hn | hn) <;> simp [Location.construct, optStr, hn]
  · intro s ha hs
    simp [Location.construct, optStr, ha, hs]
  · rintro (ha | ha) <;> simp [Location.construct, optStr, ha]

/-- C1 counterexample: with a product_list action, a text header supplied and
no body, construction fails with the body error — so the claim's product_list
rule set ("a header must be supplied and must have type text"), presented as
exactly the rules of that mode, is incomplete: body is required as well. -/
theorem c1_counterexample :
    (Interactive.construct
        (.catalog { catalog_id := "c", product_retailer_id := none,
                    sections := some
                      [.sect { title := some "A",
                               product_items := [{ product_retailer_id := "p" }] },
                       .sect { title := some "B",
                               product_items := [{ product_retailer_id := "q" }] }],
                    tag := some "product_list" })
        none (some { type := "text", text := some (.inl "Hi") }) none).1
      = .error "Interactive must have a body component" := by
  rfl

/-- C1 (amended): the mode selected by the action's discriminant enforces
exactly these rules — product: body optional, any header fails;
product_list: body required, and a header must be supplied with type text;
list: body required, a header, if supplied, must have type text;
button: body required, a header of any supported type is accepted. -/
theorem c1_interactive_mode_rules (a : Action) (b : Option Body) (h : Option Header)
    (f : Option Footer) (t : String) (ht : a.tag = some t) :
    (t = "product" → (isOkB (Interactive.construct a b h f).1 = true ↔ h = none)) ∧
    (t = "product_list" → (isOkB (Interactive.construct a b h f).1 = true ↔
      b.isSome = true ∧ headerType h = some "text")) ∧
    (t = "list" → (isOkB (Interactive.construct a b h f).1 = true ↔
      b.isSome = true ∧ (h = none ∨ headerType h = some "text"))) ∧
    (t = "button" → (isOkB (Interactive.construct a b h f).1 = true ↔ b.isSome = true)) := by
  refine ⟨?_, ?_, ?_, ?_⟩ <;> rintro rfl
  · rcases h with _ | hh <;>
      simp +decide [Interactive.construct, ht, headerType, isOkB]
  · rcases b with _ | bb
    · simp +decide [Interactive.construct, ht, headerType, isOkB]
    · rcases h with _ | hh
      · simp +decide [Interactive.construct, ht, headerType, isOkB]
      · by_cases hht : hh.type = "text" <;>
          simp +decide [Interactive.construct, ht, headerType, isOkB, hht]
  · rcases b with _ | bb
    · simp +decide [Interactive.construct, ht, headerType, isOkB]
    · rcases h with _ | hh
      · simp +decide [Interactive.construct, ht, headerType, isOkB]
      · by_cases hht : hh.type = "text" <;>
          simp +decide [Interactive.construct, ht, headerType, isOkB, hht]
  · rcases b with _ | bb <;>
      simp +decide [Interactive.construct, ht, headerType, isOkB]

/-- C1 witness: button mode with a body present succeeds. -/
theorem c1_witness :
    isOkB (Interactive.construct
        (.buttons { buttons := [{ type := "reply", reply := { id := "1", title := "t" } }],
                    tag := some "button" })
        (some { text := "hi" }) none none).1 = true :=
  ((c1_interactive_mode_rules
      (.buttons { buttons := [{ type := "reply", reply := { id := "1", title := "t" } }],
                  tag := some "button" })
      (some { text := "hi" }) none none "button" rfl).2.2.2 rfl).mpr rfl

/-- C2 counterexample: a successful `Interactive` construction does not leave
the caller's action object unchanged — its internal discriminant `_` has been
deleted by the constructor. -/
theorem c2_counterexample :
    (Interactive.construct
        (.buttons { buttons := [{ type := "reply", reply := { id := "1", title := "t" } }],
                    tag := some "button" })
        (some { text := "hi" }) none none).2
      ≠ .buttons { buttons := [{ type := "reply", reply := { id := "1", title := "t" } }],
                   tag := some "button" } := by
  decide

/-- C2 (amended): construction has no side effect apart from throwing and
removing the internal discriminant `_` from its argument: `Interactive`
leaves the action unchanged when it throws and only deletes `_`
(`Action.clearTag`) when it succeeds; `Header` never modifies a text child,
leaves a media child unchanged when its tag is missing or invalid, and once
the tag is valid deletes `_` (and nothing else) even when it then throws on
the caption check. -/
theorem c2_construction_mutates_only_tag (a : Action) (b : Option Body) (h : Option Header)
    (f : Option Footer) :
    ((∃ e, (Interactive.construct a b h f).1 = .error e) →
      (Interactive.construct a b h f).2 = a) ∧
    ((∃ i, (Interactive.construct a b h f).1 = .ok i) →
      (Interactive.construct a b h f).2 = a.clearTag) ∧
    (∀ s : String, (Header.construct (.text s)).2 = .text s) ∧
    (∀ m : MediaObj, m.tag = none → (Header.construct (.media m)).2 = .media m) ∧
    (∀ (m : MediaObj) (t : String), m.tag = some t →
      (["text", "video", "image", "document"].contains t = false →
        (Header.construct (.media m)).2 = .media m) ∧
      (["text", "video", "image", "document"].contains t = true →
        (Header.construct (.media m)).2 = .media { m with tag := none })) := by
  refine ⟨?_, ?_, ?_, ?_, ?_⟩
  · intro hex
    rcases hta : a.tag with _ | t
    · simp [Interactive.construct, hta]
    · rcases hex with ⟨e, he⟩
      simp only [Interactive.construct, hta] at he ⊢
      split_ifs at he ⊢ <;> simp_all
  · intro hex
    rcases hta : a.tag with _ | t
    · rcases hex with ⟨i, hi⟩
      simp [Interactive.construct, hta] at hi
    · rcases hex with ⟨i, hi⟩
      simp only [Interactive.construct, hta] at hi ⊢
      split_ifs at hi ⊢ <;> simp_all
  · intro s
    simp only [Header.construct]
    split_ifs <;> rfl
  · intro m hm
    simp [Header.construct, hm]
  · intro m t htag
    constructor <;> intro hmem
    · simp only [Header.construct, htag]
      rw [if_pos (by simpa using hmem)]
    · simp only [Header.construct, htag]
      rw [if_neg (not_not_intro hmem)]
      split_ifs <;> rfl

/-- C2 witness: the post-call state of a successfully consumed action is the
action with its discriminant removed. -/
theorem c2_witness :
    (Interactive.construct
        (.buttons { buttons := [{ type := "reply", reply := { id := "1", title := "t" } }],
                    tag := some "button" })
        (some { text := "hi" }) none none).2
      = (Action.buttons
          { buttons := [{ type := "reply", reply := { id := "1", title := "t" } }],
            tag := some "button" }).clearTag :=
  (c2_construction_mutates_only_tag _ _ _ _).2.1 ⟨_, rfl⟩

/-- C4: `ActionButtons` succeeds exactly when it is given 1 to 3 buttons with
pairwise distinct ids and pairwise distinct titles; zero or more than 3
buttons, a duplicated id (titles notwithstanding) or a duplicated title (ids
notwithstanding) each make it fail. -/
theorem c4_action_buttons_iff (bs : List Button) (hreply : ∀ b ∈ bs, b.type = "reply") :
    isOkB (ActionButtons.construct bs) = true ↔
      1 ≤ bs.length ∧ bs.length ≤ 3 ∧
      (bs.map fun b => b.reply.id).Nodup ∧ (bs.map fun b => b.reply.title).Nodup := by
  unfold ActionButtons.construct
  split_ifs with h1 h2 h3
  · simp only [isOkB, Bool.false_eq_true, false_iff]
    rintro ⟨hl, hr, -, -⟩
    omega
  · simp only [isOkB, Bool.false_eq_true, false_iff]
    rintro ⟨-, -, hnd, -⟩
    exact h2 ((dedup_length_eq_iff_nodup _).mpr hnd).symm
  · simp only [isOkB, Bool.false_eq_true, false_iff]
    rintro ⟨-, -, -, hnd⟩
    exact h3 ((dedup_length_eq_iff_nodup _).mpr hnd).symm
  · simp only [isOkB, true_iff]
    push_neg at h1
    refine ⟨by omega, by omega, ?_, ?_⟩
    · exact (dedup_length_eq_iff_nodup _).mp (not_ne_iff.mp h2).symm
    · exact (dedup_length_eq_iff_nodup _).mp (not_ne_iff.mp h3).symm

/-- C4 witness: two buttons with distinct ids and titles succeed. -/
theorem c4_witness :
    isOkB (ActionButtons.construct
        [{ type := "reply", reply := { id := "1", title := "A" } },
         { type := "reply", reply := { id := "2", title := "B" } }]) = true :=
  (c4_action_buttons_iff _ (by decide)).mpr (by decide)

/-- C6: a text header child over 60 characters fails (a cap distinct from
Body's 1024), one of at most 60 characters succeeds; a media child carrying a
caption fails, the same child without a caption succeeds. -/
theorem c6_header_rules :
    (∀ s : String, s.length > 60 →
      (Header.construct (.text s)).1 = .error "Header text must be 60 characters or less") ∧
    (∀ s : String, s.length ≤ 60 →
      (Header.construct (.text s)).1 = .ok { type := "text", text := some (.inl s) }) ∧
    (∀ (m : MediaObj) (t : String), m.tag = some t →
      t ∈ (["video", "image", "document"] : List String) → m.caption.isSome →
      (Header.construct (.media m)).1 = .error ("Header " ++ t ++ " must not have a caption")) ∧
    (∀ (m : MediaObj) (t : String), m.tag = some t →
      t ∈ (["video", "image", "document"] : List String) → m.caption = none →
      isOkB (Header.construct (.media m)).1 = true) := by
  refine ⟨?_, ?_, ?_, ?_⟩
  · intro s hs
    simp [Header.construct, hs]
  · intro s hs
    simp [Header.construct, Nat.not_lt.mpr hs]
  · intro m t htag hmem hcap
    simp only [List.mem_cons, List.mem_singleton, List.not_mem_nil, or_false] at hmem
    rcases hmem with rfl | rfl | rfl <;>
      simp +decide [Header.construct, htag, hcap]
  · intro m t htag hmem hcap
    simp only [List.mem_cons, List.mem_singleton, List.not_mem_nil, or_false] at hmem
    rcases hmem with rfl | rfl | rfl <;>
      simp +decide [Header.construct, htag, hcap, isOkB]

/-- C6 witness: an image child with a caption is rejected. -/
theorem c6_witness :
    (Header.construct (.media { tag := some "image", payload := "x", caption := some "c" })).1
      = .error "Header image must not have a caption" :=
  c6_header_rules.2.2.1 _ "image" rfl (by decide) rfl

/-- C8 counterexample: an id with a leading tab — leading whitespace — passes
the format check and construction succeeds, so the format error is not raised
for every leading/trailing whitespace character. -/
theorem c8_counterexample :
    Button.construct "\tx" "t" = .ok { type := "reply", reply := { id := "\tx", title := "t" } } ∧
      ('\t').isWhitespace = true := by
  exact ⟨rfl, rfl⟩

/-- C8 (amended): for a non-empty id of at most 256 characters, construction
fails with the format error exactly when the id starts or ends with a space
character U+0020 (other whitespace such as tab or newline is not checked). -/
theorem c8_button_id_space_rule (id title : String) (h1 : id ≠ "") (h2 : id.length ≤ 256) :
    (Button.construct id title = .error "Button id cannot have leading or trailing spaces") ↔
      (id.data.head? = some ' ' ∨ id.data.getLast? = some ' ') := by
  have hedge : idHasEdgeSpace id = true ↔
      (id.data.head? = some ' ' ∨ id.data.getLast? = some ' ') := by
    simp [idHasEdgeSpace]
  unfold Button.construct
  rw [if_neg h1, if_neg (by omega)]
  by_cases hsp : idHasEdgeSpace id = true
  · rw [if_pos hsp]
    simpa using hedge.mp hsp
  · rw [if_neg hsp]
    have hr : ¬ (id.data.head? = some ' ' ∨ id.data.getLast? = some ' ') :=
      fun hh => hsp (hedge.mpr hh)
    simp only [hr, iff_false]
    split_ifs <;> simp

/-- C8 witness: a leading space character is rejected with the format
error. -/
theorem c8_witness :
    Button.construct " x" "t" = .error "Button id cannot have leading or trailing spaces" :=
  (c8_button_id_space_rule " x" "t" (by decide) (by decide)).mpr (Or.inl (by decide))

/-- C10 witness: NaN coordinates with an absent name and a non-empty
address. -/
theorem c10_witness :
    (Location.construct ((0.0 : Float) / 0.0) ((1.0 : Float) / 0.0) none (some "addr")).address
      = some "addr" :=
  (c10_location_total ((0.0 : Float) / 0.0) ((1.0 : Float) / 0.0) none (some "addr")).2.2.2.2.1
    "addr" rfl (by decide)

end WhatsApp
